import Mathlib

/-!
Formal verification development for the rubato audio resampling library
(files src/lib.rs and src/windows.rs).

The window functions and the cutoff helper from `src/windows.rs` are embedded
over exact arithmetic: `calculate_cutoff` over `ℚ` (its float literals are
exact decimal fractions) and the trigonometric windows over `ℝ`.

The `Resampler` trait of `src/lib.rs` is embedded as a structure of operations
over an abstract state type, mirroring the Rust trait whose required methods
are implementation-defined; its provided (default) methods
`process_partial_into_buffer`, `input_buffer_allocate` and
`output_buffer_allocate` are embedded as functions over that structure.
Sequential buffers from the dependency crate `audio` are embedded as lists of
channel lists.
-/

namespace Rubato

/-- Embedding of the enum `WindowFunction` from src/windows.rs. -/
inductive WindowFunction where
  | Blackman
  | Blackman2
  | BlackmanHarris
  | BlackmanHarris2
  | Hann
  | Hann2
  deriving DecidableEq

/-- Embedding of `calculate_cutoff` from src/windows.rs over exact rational
arithmetic: the coefficient table is matched on the window function and the
result is `1 / (k1/npoints + k2/npoints² + k3/npoints³ + 1)`, with the powers
computed on the integer `npoints` first (`npoints.pow(2)`, `npoints.pow(3)`)
exactly as in the source. -/
def calculate_cutoff (npoints : ℕ) (windowfunc : WindowFunction) : ℚ :=
  let (k1, k2, k3) := match windowfunc with
    | WindowFunction.BlackmanHarris =>
        ((8.035953378672037 : ℚ), (57.03078027502588 : ℚ), (867.9402989951352 : ℚ))
    | WindowFunction.BlackmanHarris2 =>
        ((13.75199169984904 : ℚ), (121.68057131936176 : ℚ), (5957.651558218036 : ℚ))
    | WindowFunction.Blackman =>
        ((6.187398036770492 : ℚ), (16.109602892482037 : ℚ), (715.9711791020756 : ℚ))
    | WindowFunction.Blackman2 =>
        ((9.542238688779452 : ℚ), (75.81202588432767 : ℚ), (1572.1620695552645 : ℚ))
    | WindowFunction.Hann =>
        ((3.3520600262878313 : ℚ), (10.446229596405484 : ℚ), (64.84675682879767 : ℚ))
    | WindowFunction.Hann2 =>
        ((5.403705704263967 : ℚ), (28.227298602817687 : ℚ), (215.34865018641966 : ℚ))
  let one : ℚ := 1
  one / (k1 / (npoints : ℚ) + k2 / ((npoints ^ 2 : ℕ) : ℚ) + k3 / ((npoints ^ 3 : ℕ) : ℚ) + one)

/-- Per-window coefficient `k1` of the cutoff approximation, as the spec
describes the selection of a coefficient triple by the window function. -/
def cutoff_k1 : WindowFunction → ℚ
  | WindowFunction.BlackmanHarris => 8.035953378672037
  | WindowFunction.BlackmanHarris2 => 13.75199169984904
  | WindowFunction.Blackman => 6.187398036770492
  | WindowFunction.Blackman2 => 9.542238688779452
  | WindowFunction.Hann => 3.3520600262878313
  | WindowFunction.Hann2 => 5.403705704263967

/-- Per-window coefficient `k2` of the cutoff approximation. -/
def cutoff_k2 : WindowFunction → ℚ
  | WindowFunction.BlackmanHarris => 57.03078027502588
  | WindowFunction.BlackmanHarris2 => 121.68057131936176
  | WindowFunction.Blackman => 16.109602892482037
  | WindowFunction.Blackman2 => 75.81202588432767
  | WindowFunction.Hann => 10.446229596405484
  | WindowFunction.Hann2 => 28.227298602817687

/-- Per-window coefficient `k3` of the cutoff approximation. -/
def cutoff_k3 : WindowFunction → ℚ
  | WindowFunction.BlackmanHarris => 867.9402989951352
  | WindowFunction.BlackmanHarris2 => 5957.651558218036
  | WindowFunction.Blackman => 715.9711791020756
  | WindowFunction.Blackman2 => 1572.1620695552645
  | WindowFunction.Hann => 64.84675682879767
  | WindowFunction.Hann2 => 215.34865018641966

/-- Embedding of `blackman_harris` from src/windows.rs over `ℝ`: the window
vector of length `npoints`, sample `x` being
`a − b·cos(2πx/N) + c·cos(4πx/N) − d·cos(6πx/N)`. -/
noncomputable def blackman_harris (npoints : ℕ) : List ℝ :=
  let pi2 : ℝ := 2 * Real.pi
  let pi4 : ℝ := 4 * Real.pi
  let pi6 : ℝ := 6 * Real.pi
  let np_f : ℝ := npoints
  let a : ℝ := 0.35875
  let b : ℝ := 0.48829
  let c : ℝ := 0.14128
  let d : ℝ := 0.01168
  (List.range npoints).map fun (x : ℕ) =>
    let x_float : ℝ := x
    a - b * Real.cos (pi2 * x_float / np_f) + c * Real.cos (pi4 * x_float / np_f)
      - d * Real.cos (pi6 * x_float / np_f)

/-- Embedding of `blackman` from src/windows.rs over `ℝ`. -/
noncomputable def blackman (npoints : ℕ) : List ℝ :=
  let pi2 : ℝ := 2 * Real.pi
  let pi4 : ℝ := 4 * Real.pi
  let np_f : ℝ := npoints
  let a : ℝ := 0.42
  let b : ℝ := 0.5
  let c : ℝ := 0.08
  (List.range npoints).map fun (x : ℕ) =>
    let x_float : ℝ := x
    a - b * Real.cos (pi2 * x_float / np_f) + c * Real.cos (pi4 * x_float / np_f)

/-- Embedding of `hann` from src/windows.rs over `ℝ`. -/
noncomputable def hann (npoints : ℕ) : List ℝ :=
  let pi2 : ℝ := 2 * Real.pi
  let np_f : ℝ := npoints
  let a : ℝ := 0.5
  (List.range npoints).map fun (x : ℕ) =>
    let x_float : ℝ := x
    a - a * Real.cos (pi2 * x_float / np_f)

/-- Embedding of `make_window` from src/windows.rs: pick the base window by
the window function, then square every sample for the squared variants. -/
noncomputable def make_window (npoints : ℕ) (windowfunc : WindowFunction) : List ℝ :=
  let window : List ℝ := match windowfunc with
    | WindowFunction.BlackmanHarris | WindowFunction.BlackmanHarris2 =>
        blackman_harris npoints
    | WindowFunction.Blackman | WindowFunction.Blackman2 => blackman npoints
    | WindowFunction.Hann | WindowFunction.Hann2 => hann npoints
  match windowfunc with
  | WindowFunction.Blackman2 | WindowFunction.BlackmanHarris2 | WindowFunction.Hann2 =>
      window.map fun y => y * y
  | _ => window

/-- Modelled from the spec: the processing-error variants of `ResampleError`
(module `error` of this repository, declared by `mod error;` in src/lib.rs but
not present under src/). Section 7 of the spec lists the processing errors
with structured `expected`/`actual` fields; only the five variants constructed
by `validate_buffers` are needed here. -/
inductive ResampleError where
  | WrongNumberOfInputChannels (expected actual : ℕ)
  | WrongNumberOfMaskChannels (expected actual : ℕ)
  | InsufficientInputBufferSize (expected actual : ℕ)
  | WrongNumberOfOutputChannels (expected actual : ℕ)
  | InsufficientOutputBufferSize (expected actual : ℕ)
  deriving DecidableEq

/-- Embedding of `validate_buffers` from src/lib.rs. The Rust function reads
its buffers only through `channels()` and `frames()`, so it is embedded over
those numbers directly: `inChannels`/`inFrames` for `wave_in`,
`outChannels`/`outFrames` for `wave_out`, `maskLen` for `mask.len()`. The
five checks appear in exactly the source order. -/
def validate_buffers (inChannels inFrames outChannels outFrames maskLen channels
    minInputLen minOutputLen : ℕ) : Except ResampleError Unit :=
  if inChannels ≠ channels then
    Except.error (ResampleError.WrongNumberOfInputChannels channels inChannels)
  else if maskLen ≠ channels then
    Except.error (ResampleError.WrongNumberOfMaskChannels channels maskLen)
  else if inFrames < minInputLen then
    Except.error (ResampleError.InsufficientInputBufferSize minInputLen inFrames)
  else if outChannels ≠ channels then
    Except.error (ResampleError.WrongNumberOfOutputChannels channels outChannels)
  else if outFrames < minOutputLen then
    Except.error (ResampleError.InsufficientOutputBufferSize minOutputLen outFrames)
  else
    Except.ok ()

/-- Validation in the order stated by the claim: channel counts first (input
then output), then mask length, then input length, then output length. This
definition follows the claim's words, for comparison with `validate_buffers`
as embedded from the source. -/
def validateClaimOrder (inChannels inFrames outChannels outFrames maskLen channels
    minInputLen minOutputLen : ℕ) : Except ResampleError Unit :=
  if inChannels ≠ channels then
    Except.error (ResampleError.WrongNumberOfInputChannels channels inChannels)
  else if outChannels ≠ channels then
    Except.error (ResampleError.WrongNumberOfOutputChannels channels outChannels)
  else if maskLen ≠ channels then
    Except.error (ResampleError.WrongNumberOfMaskChannels channels maskLen)
  else if inFrames < minInputLen then
    Except.error (ResampleError.InsufficientInputBufferSize minInputLen inFrames)
  else if outFrames < minOutputLen then
    Except.error (ResampleError.InsufficientOutputBufferSize minOutputLen outFrames)
  else
    Except.ok ()

/-- The five checks of `validate_buffers` in source order, each yielding the
error it would report if it is the failing one. -/
def bufferChecks (inChannels inFrames outChannels outFrames maskLen channels
    minInputLen minOutputLen : ℕ) : List (Option ResampleError) :=
  [ if inChannels ≠ channels then
      some (ResampleError.WrongNumberOfInputChannels channels inChannels) else none,
    if maskLen ≠ channels then
      some (ResampleError.WrongNumberOfMaskChannels channels maskLen) else none,
    if inFrames < minInputLen then
      some (ResampleError.InsufficientInputBufferSize minInputLen inFrames) else none,
    if outChannels ≠ channels then
      some (ResampleError.WrongNumberOfOutputChannels channels outChannels) else none,
    if outFrames < minOutputLen then
      some (ResampleError.InsufficientOutputBufferSize minOutputLen outFrames) else none ]

/-- Report the first failing check of a list, `Except.ok ()` if none fails. -/
def firstError : List (Option ResampleError) → Except ResampleError Unit
  | [] => Except.ok ()
  | some e :: _ => Except.error e
  | none :: rest => firstError rest

/-- A non-interleaved sequential buffer: one list of samples per channel,
embedding `audio::buf::Sequential` data. -/
abbrev Buffer (α : Type) := List (List α)

/-- Modelled from the spec: `SequentialBuffer::with_topology(channels, frames)`
of the dependency crate `audio` (not part of this repository), which the spec
describes as returning a zero-filled buffer of the given shape. -/
def with_topology {α : Type} [Zero α] (channels frames : ℕ) : Buffer α :=
  List.replicate channels (List.replicate frames 0)

/-- Copy of one channel: the overlapping region takes the source samples, the
remainder keeps the destination samples; the destination length is kept. -/
def copyChannel {α : Type} (src dst : List α) : List α :=
  src.take dst.length ++ dst.drop src.length

/-- Modelled from the spec: `audio::buf::copy(from, to)` of the dependency
crate `audio`, which copies the overlapping channels and frames from `from`
into `to`, leaving the shape of `to` and any non-overlapping region of `to`
unchanged. -/
def copyInto {α : Type} : Buffer α → Buffer α → Buffer α
  | _, [] => []
  | [], dst => dst
  | s :: ss, d :: ds => copyChannel s d :: copyInto ss ds

/-- The claim's notion of zero-padding an input: extend every channel with
zeros to exactly `frames` samples. This definition follows the spec's words,
for comparison with what the source builds via `with_topology` and copy. -/
def zeroPadTo {α : Type} [Zero α] (frames : ℕ) (b : Buffer α) : Buffer α :=
  b.map fun ch => ch ++ List.replicate (frames - ch.length) 0

/-- Embedding of the `Resampler` trait of src/lib.rs: the required methods,
as operations over an abstract resampler state `σ`. `processIntoBuffer`
returns the updated state, the updated output buffer and the
`ResampleResult<(usize, usize)>` value, which together capture the result and
the state change of a call. -/
structure ResamplerM (α : Type) (σ : Type) where
  nbrChannels : σ → ℕ
  inputFramesNext : σ → ℕ
  outputFramesNext : σ → ℕ
  inputFramesMax : σ → ℕ
  outputFramesMax : σ → ℕ
  processIntoBuffer : σ → Buffer α → Buffer α → Option (List Bool) →
    σ × Buffer α × Except ResampleError (ℕ × ℕ)

/-- Embedding of the provided method `Resampler::process_partial_into_buffer`
from src/lib.rs: allocate a zero buffer of shape
`(nbr_channels, input_frames_next)`, copy the input into it when present, and
call `process_into_buffer` on it. -/
def process_partial_into_buffer {α σ : Type} [Zero α] (R : ResamplerM α σ) (s : σ)
    (waveIn : Option (Buffer α)) (waveOut : Buffer α) (mask : Option (List Bool)) :
    σ × Buffer α × Except ResampleError (ℕ × ℕ) :=
  let framesNeeded := R.inputFramesNext s
  let waveInPadded : Buffer α := with_topology (R.nbrChannels s) framesNeeded
  let waveInPadded := match waveIn with
    | some input => copyInto input waveInPadded
    | none => waveInPadded
  R.processIntoBuffer s waveInPadded waveOut mask

/-- Embedding of the provided method `Resampler::input_buffer_allocate` from
src/lib.rs. -/
def input_buffer_allocate {α σ : Type} [Zero α] (R : ResamplerM α σ) (s : σ) : Buffer α :=
  with_topology (R.nbrChannels s) (R.inputFramesMax s)

/-- Embedding of the provided method `Resampler::output_buffer_allocate` from
src/lib.rs. -/
def output_buffer_allocate {α σ : Type} [Zero α] (R : ResamplerM α σ) (s : σ) : Buffer α :=
  with_topology (R.nbrChannels s) (R.outputFramesMax s)

/-- A concrete sample resampler over rational samples and trivial state, used
to instantiate the trait-level theorems on concrete inputs. -/
def demoResampler : ResamplerM ℚ Unit where
  nbrChannels := fun _ => 2
  inputFramesNext := fun _ => 3
  outputFramesNext := fun _ => 4
  inputFramesMax := fun _ => 5
  outputFramesMax := fun _ => 6
  processIntoBuffer := fun s waveIn waveOut _ =>
    (s, waveOut, Except.ok (waveIn.length, waveOut.length))

/-- Helper: `calculate_cutoff` as the closed formula over the per-window
coefficient triple, with the powers taken of the rational cast of `npoints`. -/
lemma calculate_cutoff_eq (npoints : ℕ) (w : WindowFunction) :
    calculate_cutoff npoints w =
      1 / (cutoff_k1 w / (npoints : ℚ) + cutoff_k2 w / (npoints : ℚ) ^ 2
          + cutoff_k3 w / (npoints : ℚ) ^ 3 + 1) := by
  cases w <;>
    simp only [calculate_cutoff, cutoff_k1, cutoff_k2, cutoff_k3] <;>
    push_cast <;> ring_nf

/-- Helper: the positivity of the coefficient triples. -/
lemma cutoff_coeffs_pos (w : WindowFunction) :
    0 < cutoff_k1 w ∧ 0 < cutoff_k2 w ∧ 0 < cutoff_k3 w := by
  cases w <;> refine ⟨?_, ?_, ?_⟩ <;> norm_num [cutoff_k1, cutoff_k2, cutoff_k3]

/-- Helper: bounds for the reciprocal of the cutoff denominator. -/
lemma one_div_cutoff_den_bounds (k1 k2 k3 N : ℚ) (h1 : 0 < k1) (h2 : 0 < k2)
    (h3 : 0 < k3) (hN : 0 < N) :
    0 < 1 / (k1 / N + k2 / N ^ 2 + k3 / N ^ 3 + 1) ∧
      1 / (k1 / N + k2 / N ^ 2 + k3 / N ^ 3 + 1) < 1 := by
  have e1 : 0 < k1 / N := div_pos h1 hN
  have e2 : 0 < k2 / N ^ 2 := div_pos h2 (pow_pos hN 2)
  have e3 : 0 < k3 / N ^ 3 := div_pos h3 (pow_pos hN 3)
  have hd : 1 < k1 / N + k2 / N ^ 2 + k3 / N ^ 3 + 1 := by linarith
  have hd0 : 0 < k1 / N + k2 / N ^ 2 + k3 / N ^ 3 + 1 := by linarith
  exact ⟨one_div_pos.mpr hd0, (div_lt_one hd0).mpr hd⟩

/-- Helper: a difference that exceeds the tolerance from above is not within
the tolerance in absolute value. -/
lemma abs_diff_exceeds {a b t : ℚ} (h : t < a - b) : ¬ (|a - b| ≤ t) :=
  fun hc => absurd (abs_le.mp hc).2 (not_le.mpr h)

/-- C4: for every npoints and every window function, `calculate_cutoff`
equals `1 / (k1/N + k2/N² + k3/N³ + 1)` where `(k1, k2, k3)` is the
coefficient triple selected by the window function. -/
theorem calculate_cutoff_formula (npoints : ℕ) (w : WindowFunction) :
    calculate_cutoff npoints w =
      1 / (cutoff_k1 w / (npoints : ℚ) + cutoff_k2 w / (npoints : ℚ) ^ 2
          + cutoff_k3 w / (npoints : ℚ) ^ 3 + 1) :=
  calculate_cutoff_eq npoints w

/-- C5: every row of the §8 regression table fails against the code: at each
listed `(npoints, window)` pair, `calculate_cutoff` differs from the listed
cutoff by more than the 1e-3 tolerance. This contradicts the repository's own
unit test `test_cutoff` in src/windows.rs, which asserts these table values
with tolerance 1e-3. -/
theorem calculate_cutoff_regression_fails :
    ¬ (|calculate_cutoff 128 WindowFunction.Blackman - 0.917| ≤ 0.001) ∧
    ¬ (|calculate_cutoff 256 WindowFunction.Blackman - 0.957| ≤ 0.001) ∧
    ¬ (|calculate_cutoff 128 WindowFunction.BlackmanHarris - 0.905| ≤ 0.001) ∧
    ¬ (|calculate_cutoff 256 WindowFunction.BlackmanHarris - 0.950| ≤ 0.001) ∧
    ¬ (|calculate_cutoff 128 WindowFunction.Hann - 0.929| ≤ 0.001) ∧
    ¬ (|calculate_cutoff 256 WindowFunction.Hann2 - 0.936| ≤ 0.001) := by
  refine ⟨?_, ?_, ?_, ?_, ?_, ?_⟩ <;>
    exact abs_diff_exceeds (by norm_num [calculate_cutoff])

/-- C6 counterexample: at `npoints = 0` the cutoff value does not lie
strictly between 0 and 1 (the denominator degenerates at a zero sinc
length), refuting the claim for every npoints. -/
theorem calculate_cutoff_zero_counterexample :
    ¬ (0 < calculate_cutoff 0 WindowFunction.Blackman ∧
        calculate_cutoff 0 WindowFunction.Blackman < 1) := by
  have h : calculate_cutoff 0 WindowFunction.Blackman = 1 := by
    norm_num [calculate_cutoff]
  rw [h]
  simp

/-- C6 (amended): for every positive npoints and every window function,
`calculate_cutoff` lies strictly between 0 and 1. -/
theorem calculate_cutoff_unit_interval (npoints : ℕ) (w : WindowFunction)
    (h : 1 ≤ npoints) :
    0 < calculate_cutoff npoints w ∧ calculate_cutoff npoints w < 1 := by
  have hN : (0 : ℚ) < (npoints : ℚ) := by
    exact_mod_cast Nat.lt_of_lt_of_le Nat.zero_lt_one h
  obtain ⟨hk1, hk2, hk3⟩ := cutoff_coeffs_pos w
  rw [calculate_cutoff_eq]
  exact one_div_cutoff_den_bounds _ _ _ _ hk1 hk2 hk3 hN

/-- C6 witness: the amended bound holds at npoints = 32 with the Hann
window. -/
theorem calculate_cutoff_unit_interval_witness :
    1 ≤ 32 ∧ (0 < calculate_cutoff 32 WindowFunction.Hann ∧
      calculate_cutoff 32 WindowFunction.Hann < 1) :=
  ⟨by norm_num, calculate_cutoff_unit_interval 32 WindowFunction.Hann (by norm_num)⟩

/-- Helper: indexing a squared list yields the square of the indexed value. -/
lemma getD_map_mul_self (l : List ℝ) (i : ℕ) (h : i < l.length) :
    (l.map fun y => y * y).getD i 0 = (l.getD i 0) ^ 2 := by
  rw [List.getD_eq_getElem?_getD, List.getD_eq_getElem?_getD, List.getElem?_map,
    List.getElem?_eq_getElem h]
  simp [sq]

/-- C7: for every window length and every index below it, the Blackman-Harris
window sample is `0.35875 − 0.48829·cos(2πx/N) + 0.14128·cos(4πx/N) −
0.01168·cos(6πx/N)`. -/
theorem blackman_harris_sample (npoints x : ℕ) (hx : x < npoints) :
    (blackman_harris npoints).getD x 0 =
      0.35875 - 0.48829 * Real.cos (2 * Real.pi * x / npoints)
        + 0.14128 * Real.cos (4 * Real.pi * x / npoints)
        - 0.01168 * Real.cos (6 * Real.pi * x / npoints) := by
  rw [List.getD_eq_getElem?_getD]
  simp only [blackman_harris, List.getElem?_map, List.getElem?_range hx,
    Option.map_some', Option.getD_some]

/-- C7 witness: the Blackman-Harris sample formula at window length 4,
index 1. -/
theorem blackman_harris_sample_witness :
    1 < 4 ∧
      (blackman_harris 4).getD 1 0 =
        0.35875 - 0.48829 * Real.cos (2 * Real.pi * ((1 : ℕ) : ℝ) / ((4 : ℕ) : ℝ))
          + 0.14128 * Real.cos (4 * Real.pi * ((1 : ℕ) : ℝ) / ((4 : ℕ) : ℝ))
          - 0.01168 * Real.cos (6 * Real.pi * ((1 : ℕ) : ℝ) / ((4 : ℕ) : ℝ)) :=
  ⟨by norm_num, blackman_harris_sample 4 1 (by norm_num)⟩

/-- C8: every sample of a squared-variant window equals the square of the
corresponding sample of its base window, for each of the three base
windows. -/
theorem make_window_squared (npoints i : ℕ) (h : i < npoints) :
    (make_window npoints WindowFunction.Blackman2).getD i 0
        = ((make_window npoints WindowFunction.Blackman).getD i 0) ^ 2 ∧
    (make_window npoints WindowFunction.BlackmanHarris2).getD i 0
        = ((make_window npoints WindowFunction.BlackmanHarris).getD i 0) ^ 2 ∧
    (make_window npoints WindowFunction.Hann2).getD i 0
        = ((make_window npoints WindowFunction.Hann).getD i 0) ^ 2 := by
  have eb2 : make_window npoints WindowFunction.Blackman2
      = (blackman npoints).map fun y => y * y := rfl
  have eb : make_window npoints WindowFunction.Blackman = blackman npoints := rfl
  have ebh2 : make_window npoints WindowFunction.BlackmanHarris2
      = (blackman_harris npoints).map fun y => y * y := rfl
  have ebh : make_window npoints WindowFunction.BlackmanHarris
      = blackman_harris npoints := rfl
  have eh2 : make_window npoints WindowFunction.Hann2
      = (hann npoints).map fun y => y * y := rfl
  have eh : make_window npoints WindowFunction.Hann = hann npoints := rfl
  refine ⟨?_, ?_, ?_⟩
  · rw [eb2, eb]
    exact getD_map_mul_self (blackman npoints) i
      (by simp only [blackman, List.length_map, List.length_range]; exact h)
  · rw [ebh2, ebh]
    exact getD_map_mul_self (blackman_harris npoints) i
      (by simp only [blackman_harris, List.length_map, List.length_range]; exact h)
  · rw [eh2, eh]
    exact getD_map_mul_self (hann npoints) i
      (by simp only [hann, List.length_map, List.length_range]; exact h)

/-- C8 witness: the squared-variant relation at window length 4, index 1. -/
theorem make_window_squared_witness :
    1 < 4 ∧
      ((make_window 4 WindowFunction.Blackman2).getD 1 0
          = ((make_window 4 WindowFunction.Blackman).getD 1 0) ^ 2 ∧
        (make_window 4 WindowFunction.BlackmanHarris2).getD 1 0
          = ((make_window 4 WindowFunction.BlackmanHarris).getD 1 0) ^ 2 ∧
        (make_window 4 WindowFunction.Hann2).getD 1 0
          = ((make_window 4 WindowFunction.Hann).getD 1 0) ^ 2) :=
  ⟨by norm_num, make_window_squared 4 1 (by norm_num)⟩

/-- C2 counterexample: with matching input channels and mask, an input buffer
that is too short and an output buffer with the wrong channel count, the code
reports the insufficient input size while the claim's check order would
report the wrong output channel count first. Arguments: input has 1 channel
and 0 frames, output has 2 channels and 5 frames, mask length 1, configured
channels 1, minimum input 1, minimum output 1. -/
theorem validate_buffers_order_counterexample :
    validate_buffers 1 0 2 5 1 1 1 1
        = Except.error (ResampleError.InsufficientInputBufferSize 1 0) ∧
    validateClaimOrder 1 0 2 5 1 1 1 1
        = Except.error (ResampleError.WrongNumberOfOutputChannels 1 2) ∧
    validate_buffers 1 0 2 5 1 1 1 1 ≠ validateClaimOrder 1 0 2 5 1 1 1 1 := by
  refine ⟨rfl, rfl, fun h => ?_⟩
  simp [validate_buffers, validateClaimOrder] at h

/-- C2 (amended): `validate_buffers` reports the first failing check in the
order input channel count, mask length, input frame count, output channel
count, output frame count, as a structured error carrying the expected and
actual counts, and returns success when no check fails. -/
theorem validate_buffers_first_failing (inChannels inFrames outChannels outFrames
    maskLen channels minInputLen minOutputLen : ℕ) :
    validate_buffers inChannels inFrames outChannels outFrames maskLen channels
        minInputLen minOutputLen
      = firstError (bufferChecks inChannels inFrames outChannels outFrames maskLen
          channels minInputLen minOutputLen) := by
  simp only [validate_buffers, bufferChecks]
  split_ifs <;> simp [firstError]

/-- C3: validation succeeds whenever both channel counts and the mask length
match the configuration and both frame counts meet their minimum, including
strictly larger buffers. -/
theorem validate_buffers_ok (inChannels inFrames outChannels outFrames maskLen
    channels minInputLen minOutputLen : ℕ)
    (h1 : inChannels = channels) (h2 : outChannels = channels)
    (h3 : maskLen = channels) (h4 : minInputLen ≤ inFrames)
    (h5 : minOutputLen ≤ outFrames) :
    validate_buffers inChannels inFrames outChannels outFrames maskLen channels
        minInputLen minOutputLen = Except.ok () := by
  subst h1; subst h2; subst h3
  simp [validate_buffers, Nat.not_lt.mpr h4, Nat.not_lt.mpr h5]

/-- C3 witness: validation succeeds with 2 channels, minimum sizes 3 and 4,
and strictly larger buffers of 5 and 7 frames. -/
theorem validate_buffers_ok_witness :
    3 ≤ 5 ∧ 4 ≤ 7 ∧ validate_buffers 2 5 2 7 2 2 3 4 = Except.ok () :=
  ⟨by norm_num, by norm_num,
    validate_buffers_ok 2 5 2 7 2 2 3 4 rfl rfl rfl (by norm_num) (by norm_num)⟩

/-- Helper: dropping from a replicated list leaves a replicated list. -/
lemma replicate_drop {α : Type} (n m : ℕ) (a : α) :
    (List.replicate n a).drop m = List.replicate (n - m) a := by
  induction n generalizing m with
  | zero => simp
  | succ n ih =>
    cases m with
    | zero => simp
    | succ m => simp [List.replicate_succ, ih m]

/-- Helper: copying a channel that fits into a zero channel zero-pads it. -/
lemma copyChannel_replicate_pad {α : Type} [Zero α] (src : List α) (F : ℕ)
    (h : src.length ≤ F) :
    copyChannel src (List.replicate F (0 : α))
      = src ++ List.replicate (F - src.length) 0 := by
  unfold copyChannel
  rw [List.length_replicate, List.take_of_length_le h, replicate_drop]

/-- Helper: copying an over-long channel into a zero channel truncates it. -/
lemma copyChannel_replicate_take {α : Type} [Zero α] (src : List α) (F : ℕ)
    (h : F ≤ src.length) :
    copyChannel src (List.replicate F (0 : α)) = src.take F := by
  unfold copyChannel
  rw [List.length_replicate, List.drop_eq_nil_of_le (by simpa using h),
    List.append_nil]

/-- Helper: copying a buffer whose channels all fit into a zero buffer of its
channel count zero-pads every channel. -/
lemma copyInto_replicate_pad {α : Type} [Zero α] :
    ∀ (l : Buffer α) (F : ℕ), (∀ ch ∈ l, ch.length ≤ F) →
      copyInto l (List.replicate l.length (List.replicate F 0)) = zeroPadTo F l
  | [], _, _ => rfl
  | a :: l, F, h => by
    rw [List.length_cons, List.replicate_succ]
    show copyChannel a (List.replicate F 0)
        :: copyInto l (List.replicate l.length (List.replicate F 0)) = _
    rw [copyChannel_replicate_pad a F (h a (List.mem_cons_self a l)),
      copyInto_replicate_pad l F (fun ch hch => h ch (List.mem_cons_of_mem a hch))]
    rfl

/-- Helper: copying a buffer whose channels are all at least as long as the
zero buffer's frame count truncates every channel. -/
lemma copyInto_replicate_take {α : Type} [Zero α] :
    ∀ (l : Buffer α) (F : ℕ), (∀ ch ∈ l, F ≤ ch.length) →
      copyInto l (List.replicate l.length (List.replicate F 0))
        = l.map fun ch => ch.take F
  | [], _, _ => rfl
  | a :: l, F, h => by
    rw [List.length_cons, List.replicate_succ]
    show copyChannel a (List.replicate F 0)
        :: copyInto l (List.replicate l.length (List.replicate F 0)) = _
    rw [copyChannel_replicate_take a F (h a (List.mem_cons_self a l)),
      copyInto_replicate_take l F (fun ch hch => h ch (List.mem_cons_of_mem a hch))]
    rfl

/-- C1: for every resampler, state, output buffer and mask, calling
`process_partial_into_buffer` with an input buffer of the resampler's channel
count whose channels hold at most `input_frames_next` frames makes exactly the
call `process_into_buffer` would receive on that input zero-padded to exactly
`input_frames_next` frames per channel — hence the same state change, output
and result — and calling it with no input makes exactly the call on an
all-zero input of `input_frames_next` frames per channel. -/
theorem process_partial_zero_pads {α σ : Type} [Zero α] (R : ResamplerM α σ)
    (s : σ) (waveOut : Buffer α) (mask : Option (List Bool)) (input : Buffer α)
    (hch : input.length = R.nbrChannels s)
    (hfr : ∀ ch ∈ input, ch.length ≤ R.inputFramesNext s) :
    process_partial_into_buffer R s (some input) waveOut mask
        = R.processIntoBuffer s (zeroPadTo (R.inputFramesNext s) input) waveOut mask
      ∧ process_partial_into_buffer R s none waveOut mask
        = R.processIntoBuffer s
            (List.replicate (R.nbrChannels s)
              (List.replicate (R.inputFramesNext s) 0))
            waveOut mask := by
  constructor
  · show R.processIntoBuffer s
        (copyInto input (with_topology (R.nbrChannels s) (R.inputFramesNext s)))
        waveOut mask = _
    rw [with_topology, ← hch, copyInto_replicate_pad input _ hfr]
  · rfl

/-- C1 witness: the zero-padding equivalence at the concrete sample resampler,
with a two-channel input of 2 and 1 frames against 3 needed frames. -/
theorem process_partial_zero_pads_witness :
    process_partial_into_buffer demoResampler () (some [[1, 2], [3]])
        [[5, 5], [6, 6]] none
      = demoResampler.processIntoBuffer () (zeroPadTo 3 [[1, 2], [3]])
          [[5, 5], [6, 6]] none :=
  (process_partial_zero_pads demoResampler () [[5, 5], [6, 6]] none
    [[1, 2], [3]] rfl (by decide)).1

/-- C10: for every resampler, state, output buffer and mask, calling
`process_partial_into_buffer` with an input buffer of the resampler's channel
count whose channels all hold strictly more than `input_frames_next` frames
makes exactly the call `process_into_buffer` would receive on that input
truncated to `input_frames_next` frames per channel: the excess frames are
silently ignored. -/
theorem process_partial_truncates {α σ : Type} [Zero α] (R : ResamplerM α σ)
    (s : σ) (waveOut : Buffer α) (mask : Option (List Bool)) (input : Buffer α)
    (hch : input.length = R.nbrChannels s)
    (hfr : ∀ ch ∈ input, R.inputFramesNext s < ch.length) :
    process_partial_into_buffer R s (some input) waveOut mask
      = R.processIntoBuffer s (input.map fun ch => ch.take (R.inputFramesNext s))
          waveOut mask := by
  show R.processIntoBuffer s
      (copyInto input (with_topology (R.nbrChannels s) (R.inputFramesNext s)))
      waveOut mask = _
  rw [with_topology, ← hch,
    copyInto_replicate_take input _ (fun ch hch2 => le_of_lt (hfr ch hch2))]

/-- C10 witness: the truncation equivalence at the concrete sample resampler,
with a two-channel input of 4 and 5 frames against 3 needed frames. -/
theorem process_partial_truncates_witness :
    process_partial_into_buffer demoResampler ()
        (some [[1, 2, 3, 4], [5, 6, 7, 8, 9]]) [[5, 5]] none
      = demoResampler.processIntoBuffer ()
          (([[1, 2, 3, 4], [5, 6, 7, 8, 9]] : Buffer ℚ).map fun ch => ch.take 3)
          [[5, 5]] none :=
  process_partial_truncates demoResampler () [[5, 5]] none
    [[1, 2, 3, 4], [5, 6, 7, 8, 9]] rfl (by decide)

/-- C9: the input and output allocation helpers return buffers with
`nbr_channels` channels of `input_frames_max` respectively
`output_frames_max` frames each, every sample zero. -/
theorem buffer_allocate_shape {α σ : Type} [Zero α] [DecidableEq α]
    (R : ResamplerM α σ) (s : σ) :
    (input_buffer_allocate R s).length = R.nbrChannels s ∧
    ((input_buffer_allocate R s).all fun ch =>
        ch.length == R.inputFramesMax s && ch.all fun v => v == 0) = true ∧
    (output_buffer_allocate R s).length = R.nbrChannels s ∧
    ((output_buffer_allocate R s).all fun ch =>
        ch.length == R.outputFramesMax s && ch.all fun v => v == 0) = true := by
  refine ⟨?_, ?_, ?_, ?_⟩
  · simp [input_buffer_allocate, with_topology]
  · simp only [input_buffer_allocate, with_topology, List.all_eq_true]
    intro ch hch
    obtain ⟨-, rfl⟩ := List.mem_replicate.mp hch
    simp [List.all_eq_true, List.mem_replicate]
  · simp [output_buffer_allocate, with_topology]
  · simp only [output_buffer_allocate, with_topology, List.all_eq_true]
    intro ch hch
    obtain ⟨-, rfl⟩ := List.mem_replicate.mp hch
    simp [List.all_eq_true, List.mem_replicate]

/-- C9 witness: the allocation shapes at the concrete sample resampler. -/
theorem buffer_allocate_shape_witness :
    (input_buffer_allocate demoResampler ()).length = 2 ∧
    ((input_buffer_allocate demoResampler ()).all fun ch =>
        ch.length == 5 && ch.all fun v => v == 0) = true ∧
    (output_buffer_allocate demoResampler ()).length = 2 ∧
    ((output_buffer_allocate demoResampler ()).all fun ch =>
        ch.length == 6 && ch.all fun v => v == 0) = true :=
  buffer_allocate_shape demoResampler ()

end Rubato
